import Mathlib

/-!
# ExamShield detection and alerting engine — verification development

Shallow embedding of the ExamShield detection/alerting core
(`respberry_pi/main.py`, `rf_receiver.py`, `thermal_detection.py`,
`alert_system.py`, `utils.py`) and proofs of the specified properties.

Python floats are modelled exactly over `ℚ` (and over `ℝ` where the code
uses `10 ** x` or `math.sqrt`); wall-clock times are `ℚ` parameters.
Python dicts keyed by device id are modelled as association lists; fallible
operations (index errors, `int()` parse failures, division by zero) are
modelled with `Option`.
-/

namespace ExamShield

/-- Python slice `l[-n:]` for `n > 0` (here used with its general behaviour:
for `n ≥ len` it is the whole list). -/
def pyLastSlice (n : ℕ) (l : List α) : List α :=
  l.drop (l.length - n)

/-- Python slice `l[-k:]` where `k` is a computed length: for `k = 0` Python
reads `l[0:]`, the whole list; for `k > 0` it is the last `min k len`
elements. -/
def pySliceFromNeg (l : List α) (k : ℕ) : List α :=
  if k = 0 then l else l.drop (l.length - k)

/-- An `active_detections` record as built by `main.py`
(`handle_correlation` / `handle_rf_only_detections` /
`handle_thermal_only_detections`). -/
structure Detection where
  first_detected : ℚ
  last_updated : ℚ
  positions : List (ℚ × ℚ)
  detection_type : String
  confidence_scores : List ℚ
  alert_triggered : Bool
deriving DecidableEq, Repr

/-- `ExamShieldSystem.should_trigger_alert` (main.py lines 328–344):
already-alerted records never re-alert; the record must be older than
`min_detection_time`; at least 3 confidence samples are required; then the
average of the last 3 scores is compared against `confidence_threshold`. -/
def should_trigger_alert (min_detection_time confidence_threshold now : ℚ)
    (detection : Detection) : Bool :=
  if detection.alert_triggered then false
  else if now - detection.first_detected < min_detection_time then false
  else if detection.confidence_scores.length < 3 then false
  else decide (confidence_threshold ≤ (pyLastSlice 3 detection.confidence_scores).sum / 3)

/-- The record mutation performed by `ExamShieldSystem.handle_correlation`
(main.py lines 252–263) once the confidence threshold is met: set
`last_updated := now`, append the thermal position and the correlation
confidence, then run the (buggy) "keep only recent positions" filter —
whose condition compares the wall-clock `last_updated` against the element
count `len(positions) - i` — and re-slice `confidence_scores` with the
Python slice `[-len(positions):]`. -/
def handle_correlation_update (now : ℚ) (thermal_pos : ℚ × ℚ) (confidence : ℚ)
    (detection : Detection) : Detection :=
  let positions := detection.positions ++ [thermal_pos]
  let confidence_scores := detection.confidence_scores ++ [confidence]
  let kept := (positions.enum.filter
    (fun p => decide (now - ((positions.length : ℚ) - (p.1 : ℚ)) ≤ 30))).map Prod.snd
  { detection with
      last_updated := now
      positions := kept
      confidence_scores := pySliceFromNeg confidence_scores kept.length }

/-- The record mutation performed by `handle_rf_only_detections` and
`handle_thermal_only_detections` (main.py lines 290–293 and 320–323): both
simply set `last_updated` and append one position and one confidence. -/
def handle_single_modality_update (now : ℚ) (position : ℚ × ℚ) (confidence : ℚ)
    (detection : Detection) : Detection :=
  { detection with
      last_updated := now
      positions := detection.positions ++ [position]
      confidence_scores := detection.confidence_scores ++ [confidence] }

/-- `ExamShieldSystem.cleanup_old_detections` (main.py lines 385–396): collect
the device ids whose record satisfies `now - last_updated > 30`, then delete
those keys from the `active_detections` dict (modelled as an association
list). -/
def cleanup_old_detections (now : ℚ) (active_detections : List (String × Detection)) :
    List (String × Detection) :=
  let expired := (active_detections.filter
    (fun p => decide (30 < now - p.2.last_updated))).map Prod.fst
  active_detections.filter (fun p => decide (p.1 ∉ expired))

/-- `trilaterate` (utils.py lines 61–90): 2D trilateration from the first
three scanner positions and distances; returns `none` when fewer than 3
inputs are given, or when the `x` division raises `ZeroDivisionError`
(denominator `E*A - B*D` zero). -/
def trilaterate (distances : List ℚ) (positions : List (ℚ × ℚ)) : Option (ℚ × ℚ) :=
  match distances, positions with
  | r1 :: r2 :: r3 :: _, (x1, y1) :: (x2, y2) :: (x3, y3) :: _ =>
    let A := 2 * (x2 - x1)
    let B := 2 * (y2 - y1)
    let C := r1 ^ 2 - r2 ^ 2 - x1 ^ 2 + x2 ^ 2 - y1 ^ 2 + y2 ^ 2
    let D := 2 * (x3 - x2)
    let E := 2 * (y3 - y2)
    let F := r2 ^ 2 - r3 ^ 2 - x2 ^ 2 + x3 ^ 2 - y2 ^ 2 + y3 ^ 2
    if E * A - B * D = 0 then none
    else some ((C * E - F * B) / (E * A - B * D), (A * F - D * C) / (A * E - B * D))
  | _, _ => none

/-- The confidence computed for a surviving blob in
`ThermalDetection.detect_hotspots` (thermal_detection.py lines 204–213):
`temp_confidence = min((avg_temp - 25) / 15, 1.0)` (no lower clamp),
`size_confidence = 1.0 - abs(area - 10) / 10` (no clamp at all),
`confidence = (temp_confidence + size_confidence) / 2`, and the stored
field is `max(0.1, confidence)`. -/
def hotspot_confidence (avg_temp area : ℚ) : ℚ :=
  let temp_confidence := min ((avg_temp - 25) / 15) 1
  let size_confidence := 1 - |area - 10| / 10
  let confidence := (temp_confidence + size_confidence) / 2
  max (1 / 10) confidence

/-- Clamp to the unit interval, as used by the spec's wording
"clamp(x, 0, 1)". -/
def clamp01 (x : ℚ) : ℚ :=
  max 0 (min x 1)

/-- The hotspot confidence as the spec sentence words it: the plain average
of the two clamped component confidences. Used only to compare against the
source computation `hotspot_confidence`. -/
def hotspot_confidence_claimed (avg_temp area : ℚ) : ℚ :=
  (clamp01 ((avg_temp - 25) / 15) + clamp01 (1 - |area - 10| / 10)) / 2

/-- One queued RF detection datum, as built by `_parse_esp32_data`
(rf_receiver.py lines 90–118): scanner id, reconstructed MAC, integer RSSI,
device type and the scanner position. (The `timestamp` field is a wall-clock
read and is carried separately where needed.) -/
structure RFDetection where
  esp32_id : ℕ
  mac_address : List Char
  rssi : ℤ
  device_type : List Char
  timestamp : ℚ
  position : ℚ × ℚ
deriving DecidableEq, Repr

/-- `RFReceiver._calculate_position_confidence` (rf_receiver.py lines
238–256): `0.0` for an empty detection window; otherwise
`min(uniqueEsp32s / 4, 1) * max(0.1, min(1, (avgRssi + 100) / 50))`. -/
def calculate_position_confidence (detections : List RFDetection) : ℚ :=
  if detections = [] then 0
  else
    let unique_esp32s := (detections.map (fun d => d.esp32_id)).dedup.length
    let base_confidence := min ((unique_esp32s : ℚ) / 4) 1
    let avg_rssi := ((detections.map (fun d => (d.rssi : ℚ))).sum) / (detections.length : ℚ)
    let rssi_factor := max (1 / 10) (min 1 ((avg_rssi + 100) / 50))
    base_confidence * rssi_factor

/-- `RFReceiver._rssi_to_distance` (rf_receiver.py lines 197–209): the
sentinel `-1.0` for `rssi == 0`; otherwise
`max(10 ** ((-30 - rssi) / (10 * 2.0)), 0.1)`. -/
noncomputable def rssi_to_distance (rssi : ℤ) : ℝ :=
  if rssi = 0 then -1
  else max ((10 : ℝ) ^ (((-30 : ℝ) - (rssi : ℝ)) / (10 * 2))) (1 / 10)

/-- The per-pair body of `correlate_rf_thermal` (utils.py lines 124–151):
Euclidean distance between an RF position and a hotspot position; a
correlation confidence `1 - distance / threshold` is produced exactly when
`distance ≤ threshold` and the division does not raise `ZeroDivisionError`
(`threshold = 0` with `distance = 0` kills the tick and produces no value,
modelled as `none`). -/
noncomputable def correlation_confidence (rf_pos thermal_pos : ℝ × ℝ) (threshold : ℝ) :
    Option ℝ :=
  let distance := Real.sqrt ((rf_pos.1 - thermal_pos.1) ^ 2 + (rf_pos.2 - thermal_pos.2) ^ 2)
  if distance ≤ threshold then
    if threshold = 0 then none else some (1 - distance / threshold)
  else none

/-- Python `str.split(sep)` for a single-character separator, over the
character list of the string: splitting never drops empty fields and the
empty string splits to one empty field. -/
def pySplitAux (sep : Char) : List Char → List Char → List (List Char)
  | [], acc => [acc.reverse]
  | c :: cs, acc =>
    if c = sep then acc.reverse :: pySplitAux sep cs []
    else pySplitAux sep cs (c :: acc)

/-- Python `line.split(sep)` for a one-character separator. -/
def pySplit (sep : Char) (cs : List Char) : List (List Char) :=
  pySplitAux sep cs []

/-- Whitespace characters stripped by Python `int(str)`. -/
def pyIsSpace (c : Char) : Bool :=
  c = ' ' ∨ c = '\t' ∨ c = '\n' ∨ c = '\r'

/-- Digit-string value accumulator. -/
def digitsVal : List Char → ℕ → ℕ
  | [], acc => acc
  | c :: cs, acc => digitsVal cs (acc * 10 + (c.toNat - '0'.toNat))

/-- Python `int(str)`: strip surrounding whitespace, allow one optional sign,
then a nonempty run of decimal digits; anything else raises `ValueError`
(modelled as `none`). (Digit-group underscores, accepted by CPython, are not
produced by the scanner protocol and are not modelled.) -/
def pyInt? (cs : List Char) : Option ℤ :=
  let t := ((cs.dropWhile pyIsSpace).reverse.dropWhile pyIsSpace).reverse
  let parseDigits : List Char → Option ℕ := fun ds =>
    if ds ≠ [] ∧ ds.all (fun c => c.isDigit) then some (digitsVal ds 0) else none
  match t with
  | '-' :: ds => (parseDigits ds).map (fun n => -(n : ℤ))
  | '+' :: ds => (parseDigits ds).map (fun n => (n : ℤ))
  | ds => (parseDigits ds).map (fun n => (n : ℤ))

/-- The fixed scanner positions of `RFReceiver.__init__`
(rf_receiver.py lines 25–30). -/
def esp32_positions : List (ℚ × ℚ) :=
  [(0, 0), (100, 0), (0, 100), (100, 100)]

/-- `RFReceiver._parse_esp32_data` (rf_receiver.py lines 90–118) as the
observation it enqueues, or `none` when the line is dropped: the guard
requires the `DEVICE:` head and `len(parts) >= 4`; then
`mac = ":".join(parts[1:7])`, `rssi = int(parts[7])` (an `IndexError` for
fewer than 8 fields or a `ValueError` on a non-integer field aborts via the
enclosing `except` and drops the line), `device_type = parts[8]` when
present else `"Unknown"`, and `position = esp32_positions[esp32_id]` (an
out-of-range scanner id also raises and drops). -/
def parse_esp32_data (esp32_id : ℕ) (positions : List (ℚ × ℚ)) (now : ℚ)
    (line : String) : Option RFDetection :=
  let cs := line.toList
  if ("DEVICE:".toList).isPrefixOf cs then
    let parts := pySplit ':' cs
    if 4 ≤ parts.length then
      match (parts.get? 7).bind pyInt? with
      | some rssi =>
        (positions.get? esp32_id).map (fun pos =>
          { esp32_id := esp32_id
            mac_address := List.intercalate [':'] ((parts.drop 1).take 6)
            rssi := rssi
            device_type := (parts.get? 8).getD ("Unknown".toList)
            timestamp := now
            position := pos })
      | none => none
    else none
  else none

/-- The effect of one scanner line on the observation queue
(`self.data_queue.put(detection_data)` on acceptance, no mutation on a
dropped line). -/
def process_scanner_line (esp32_id : ℕ) (positions : List (ℚ × ℚ)) (now : ℚ)
    (queue : List RFDetection) (line : String) : List RFDetection :=
  match parse_esp32_data esp32_id positions now line with
  | some obs => queue ++ [obs]
  | none => queue

/-- The acceptance condition exactly as the claim words it: the line begins
with `DEVICE:` and splits into at least 4 colon-delimited fields. -/
def claim_accepts (line : String) : Bool :=
  ("DEVICE:".toList).isPrefixOf line.toList ∧ 4 ≤ (pySplit ':' line.toList).length

/-- An entry of the `AlertSystem.alert_queue` as built by `trigger_alert`
(alert_system.py lines 112–125). -/
structure AlertRequest where
  target_position : Option (ℚ × ℚ)
  alert_type : String
  duration : ℚ
  timestamp : ℚ
deriving DecidableEq, Repr

/-- The mutable state of `AlertSystem` touched by `emergency_stop`: the three
GPIO outputs, the alert queue, the `alert_active` flag, the current target
and the servo angles. -/
structure AlertState where
  laser : Bool
  buzzer : Bool
  led : Bool
  alert_queue : List AlertRequest
  alert_active : Bool
  current_target : Option (ℚ × ℚ)
  current_x_angle : ℚ
  current_y_angle : ℚ
deriving DecidableEq, Repr

/-- The queue-clearing loop of `emergency_stop`
(`while not self.alert_queue.empty(): self.alert_queue.get_nowait()`),
one dequeue per iteration. -/
def drain_queue : List AlertRequest → List AlertRequest
  | [] => []
  | _ :: rest => drain_queue rest

/-- `AlertSystem.emergency_stop` (alert_system.py lines 328–348): force the
laser, buzzer and LED outputs low, drain the alert queue, clear
`alert_active` and `current_target`. Servo angles are untouched. -/
def emergency_stop (s : AlertState) : AlertState :=
  { s with
      laser := false
      buzzer := false
      led := false
      alert_queue := drain_queue s.alert_queue
      alert_active := false
      current_target := none }

/-- A `detected_devices` entry of `RFReceiver` (rf_receiver.py lines
138–144): first/last observation times, the pruned observation window and
the optional trilateration result. -/
structure Device where
  first_seen : ℚ
  last_seen : ℚ
  detections : List RFDetection
  estimated_position : Option (ℚ × ℚ)
deriving DecidableEq, Repr

/-- An element of the `get_estimated_positions` result list
(rf_receiver.py lines 228–234). -/
structure PositionReport where
  mac_address : String
  position : ℚ × ℚ
  confidence : ℚ
deriving DecidableEq, Repr

/-- `RFReceiver.get_detected_devices` (rf_receiver.py lines 211–221): keep
exactly the devices with `current_time - last_seen <= 10`. -/
def get_detected_devices (now : ℚ) (detected_devices : List (String × Device)) :
    List (String × Device) :=
  detected_devices.filter (fun p => decide (now - p.2.last_seen ≤ 10))

/-- `RFReceiver.get_estimated_positions` (rf_receiver.py lines 223–236):
over the active devices only, report each device with a truthy
`estimated_position`, with confidence from
`_calculate_position_confidence`. -/
def get_estimated_positions (now : ℚ) (detected_devices : List (String × Device)) :
    List PositionReport :=
  (get_detected_devices now detected_devices).filterMap (fun p =>
    p.2.estimated_position.map (fun pos =>
      { mac_address := p.1
        position := pos
        confidence := calculate_position_confidence p.2.detections }))

/-- C1: `should_trigger_alert` returns false when `alert_triggered` is
already set, false before `min_detection_time` has elapsed since
`first_detected`, false with fewer than 3 confidence samples, and otherwise
returns true iff the mean of the last 3 confidence scores is at least
`confidence_threshold`. -/
theorem c1_should_trigger_alert_spec (min_detection_time confidence_threshold now : ℚ)
    (d : Detection) :
    should_trigger_alert min_detection_time confidence_threshold now d = true ↔
      d.alert_triggered = false ∧
      min_detection_time ≤ now - d.first_detected ∧
      3 ≤ d.confidence_scores.length ∧
      confidence_threshold ≤ (pyLastSlice 3 d.confidence_scores).sum / 3 := by
  simp only [should_trigger_alert]
  split_ifs with h1 h2 h3
  · simp [h1]
  · simp only [Bool.false_eq_true, false_iff]
    rintro ⟨-, hle, -⟩
    exact absurd h2 (not_lt.mpr hle)
  · simp only [Bool.false_eq_true, false_iff]
    rintro ⟨-, -, hlen, -⟩
    exact absurd h3 (not_lt.mpr hlen)
  · simp only [decide_eq_true_eq]
    constructor
    · intro h
      exact ⟨Bool.not_eq_true _ ▸ (by simpa using h1), not_lt.mp h2, not_lt.mp h3, h⟩
    · rintro ⟨-, -, -, h⟩
      exact h

/-- C2: the correlated-evidence update of `handle_correlation` destroys the
parallel-windows invariant: at wall-clock time 100 (any time past 31
seconds of epoch) a fresh record receiving one correlated sample ends with
an empty `positions` window but one retained confidence score, because the
recency filter compares the wall-clock `last_updated` against an element
count and the subsequent `[-0:]` slice keeps the whole score list. -/
theorem c2_correlation_breaks_parallel_windows :
    ((handle_correlation_update 100 (5, 5) (9 / 10)
        { first_detected := 100
          last_updated := 100
          positions := []
          detection_type := "rf_thermal_correlation"
          confidence_scores := []
          alert_triggered := false }).positions.length = 0) ∧
    ((handle_correlation_update 100 (5, 5) (9 / 10)
        { first_detected := 100
          last_updated := 100
          positions := []
          detection_type := "rf_thermal_correlation"
          confidence_scores := []
          alert_triggered := false }).confidence_scores.length = 1) := by
  constructor <;>
    norm_num [handle_correlation_update, pySliceFromNeg, List.enum, List.enumFrom,
      List.filter]

/-- C3 counterexample: at `rssi = 0` the code returns the sentinel `-1.0`,
so the distance is not floored at 0.1 m there, and the pair `0 < 1` of RSSI
values violates monotone non-increase (`-1 < 0.1 ≤ distance(1)`). -/
theorem c3_counterexample :
    (0 : ℤ) < 1 ∧ rssi_to_distance 0 < rssi_to_distance 1 ∧
      rssi_to_distance 0 < 1 / 10 := by
  have h0 : rssi_to_distance 0 = -1 := by
    rw [rssi_to_distance, if_pos rfl]
  have h1 : (1 : ℝ) / 10 ≤ rssi_to_distance 1 := by
    rw [rssi_to_distance, if_neg (by norm_num : (1 : ℤ) ≠ 0)]
    exact le_max_right _ _
  refine ⟨by norm_num, ?_, ?_⟩
  · rw [h0]; linarith
  · rw [h0]; norm_num

/-- C3 (amended): away from the `rssi = 0` sentinel, `_rssi_to_distance` is
at least 0.1 m and monotonically non-increasing in rssi. -/
theorem c3_rssi_to_distance_amended :
    (∀ rssi : ℤ, rssi ≠ 0 → (1 : ℝ) / 10 ≤ rssi_to_distance rssi) ∧
    (∀ r1 r2 : ℤ, r1 ≠ 0 → r2 ≠ 0 → r1 < r2 →
      rssi_to_distance r2 ≤ rssi_to_distance r1) := by
  constructor
  · intro rssi h
    rw [rssi_to_distance, if_neg h]
    exact le_max_right _ _
  · intro r1 r2 h1 h2 hlt
    rw [rssi_to_distance, rssi_to_distance, if_neg h1, if_neg h2]
    refine max_le_max ?_ le_rfl
    apply Real.rpow_le_rpow_of_exponent_le (by norm_num)
    have hc : (r1 : ℝ) < (r2 : ℝ) := by exact_mod_cast hlt
    linarith

/-- C3 witness: the amended theorem applied at the concrete pair
`-50 < -40` of nonzero RSSI values. -/
theorem c3_rssi_to_distance_amended_witness :
    (1 : ℝ) / 10 ≤ rssi_to_distance (-50) ∧
      rssi_to_distance (-40) ≤ rssi_to_distance (-50) :=
  ⟨c3_rssi_to_distance_amended.1 (-50) (by decide),
   c3_rssi_to_distance_amended.2 (-50) (-40) (by decide) (by decide) (by decide)⟩

/-- C4: for any inputs with at least 3 scanner positions and distances,
`trilaterate` returns the closed-form solution
`x = (CE - FB)/(EA - BD)`, `y = (AF - DC)/(AE - BD)` (with
`A = 2(x2-x1)`, `B = 2(y2-y1)`, `C = r1²-r2²-x1²+x2²-y1²+y2²`,
`D = 2(x3-x2)`, `E = 2(y3-y2)`, `F = r2²-r3²-x2²+x3²-y2²+y3²`) whenever
`EA - BD ≠ 0`, and `none` exactly when `EA - BD = 0`; and on scanners
`(0,0),(100,0),(0,100)` with distances 70.7 each it returns exactly
`(50, 50)`. -/
theorem c4_trilaterate_spec :
    (∀ (r1 r2 r3 : ℚ) (ds : List ℚ) (x1 y1 x2 y2 x3 y3 : ℚ) (ps : List (ℚ × ℚ)),
      (2 * (y3 - y2) * (2 * (x2 - x1)) - 2 * (y2 - y1) * (2 * (x3 - x2)) = 0 →
        trilaterate (r1 :: r2 :: r3 :: ds) ((x1, y1) :: (x2, y2) :: (x3, y3) :: ps) =
          none) ∧
      (2 * (y3 - y2) * (2 * (x2 - x1)) - 2 * (y2 - y1) * (2 * (x3 - x2)) ≠ 0 →
        trilaterate (r1 :: r2 :: r3 :: ds) ((x1, y1) :: (x2, y2) :: (x3, y3) :: ps) =
          some
            (((r1 ^ 2 - r2 ^ 2 - x1 ^ 2 + x2 ^ 2 - y1 ^ 2 + y2 ^ 2) * (2 * (y3 - y2)) -
                 (r2 ^ 2 - r3 ^ 2 - x2 ^ 2 + x3 ^ 2 - y2 ^ 2 + y3 ^ 2) * (2 * (y2 - y1))) /
               (2 * (y3 - y2) * (2 * (x2 - x1)) - 2 * (y2 - y1) * (2 * (x3 - x2))),
             (2 * (x2 - x1) * (r2 ^ 2 - r3 ^ 2 - x2 ^ 2 + x3 ^ 2 - y2 ^ 2 + y3 ^ 2) -
                 2 * (x3 - x2) * (r1 ^ 2 - r2 ^ 2 - x1 ^ 2 + x2 ^ 2 - y1 ^ 2 + y2 ^ 2)) /
               (2 * (x2 - x1) * (2 * (y3 - y2)) - 2 * (y2 - y1) * (2 * (x3 - x2)))))) ∧
    trilaterate [707 / 10, 707 / 10, 707 / 10] [(0, 0), (100, 0), (0, 100)] =
      some (50, 50) := by
  constructor
  · intro r1 r2 r3 ds x1 y1 x2 y2 x3 y3 ps
    constructor
    · intro h
      simp only [trilaterate]
      rw [if_pos h]
    · intro h
      simp only [trilaterate]
      rw [if_neg h]
  · norm_num [trilaterate]

/-- C4 witness: the characterization applied at concrete inputs — collinear
scanners `(0,0),(1,0),(2,0)` give a zero denominator and no estimate, and
the non-degenerate scanners `(0,0),(100,0),(0,100)` with equal distances 60
give `(50,50)`. -/
theorem c4_trilaterate_spec_witness :
    trilaterate [1, 1, 1] [(0, 0), (1, 0), (2, 0)] = none ∧
    trilaterate [60, 60, 60] [(0, 0), (100, 0), (0, 100)] = some (50, 50) := by
  constructor
  · exact (c4_trilaterate_spec.1 1 1 1 [] 0 0 1 0 2 0 []).1 (by norm_num)
  · rw [(c4_trilaterate_spec.1 60 60 60 [] 0 0 100 0 0 100 []).2 (by norm_num)]
    norm_num

/-- C5 counterexample: for a surviving blob with average temperature 10 and
pixel area 10, the code reports confidence `0.1`
(`max(0.1, (min(-1, 1) + 1) / 2)`), while the claimed clamped average is
`(clamp(-1,0,1) + clamp(1,0,1)) / 2 = 0.5`. -/
theorem c5_counterexample :
    hotspot_confidence 10 10 = 1 / 10 ∧
    hotspot_confidence_claimed 10 10 = 1 / 2 ∧
    hotspot_confidence 10 10 ≠ hotspot_confidence_claimed 10 10 := by
  norm_num [hotspot_confidence, hotspot_confidence_claimed, clamp01]

/-- C5 (amended): the reported blob confidence is
`max(0.1, (min((avgTemp-25)/15, 1) + (1 - |area-10|/10)) / 2)` — only the
temperature term is capped above at 1, neither term is clamped below at 0,
and the final average is floored at 0.1; it agrees with the claimed
clamped-average formula whenever `avgTemp ≥ 25`, `|area-10| ≤ 10` and that
formula is at least 0.1. -/
theorem c5_hotspot_confidence_amended :
    (∀ avg_temp area : ℚ,
      hotspot_confidence avg_temp area =
        max (1 / 10) ((min ((avg_temp - 25) / 15) 1 + (1 - |area - 10| / 10)) / 2)) ∧
    (∀ avg_temp area : ℚ, 25 ≤ avg_temp → |area - 10| ≤ 10 →
      1 / 10 ≤ hotspot_confidence_claimed avg_temp area →
      hotspot_confidence avg_temp area = hotspot_confidence_claimed avg_temp area) := by
  constructor
  · intro avg_temp area
    rfl
  · intro avg_temp area htemp harea hfloor
    have h1 : clamp01 ((avg_temp - 25) / 15) = min ((avg_temp - 25) / 15) 1 := by
      rw [clamp01, max_eq_right]
      exact le_min (by linarith) (by norm_num)
    have h2 : clamp01 (1 - |area - 10| / 10) = 1 - |area - 10| / 10 := by
      have habs : (0 : ℚ) ≤ |area - 10| := abs_nonneg _
      rw [clamp01, min_eq_left (by linarith), max_eq_right (by linarith)]
    rw [hotspot_confidence_claimed, h1, h2] at hfloor ⊢
    rw [hotspot_confidence]
    exact max_eq_right hfloor

/-- C5 witness: the amended theorem applied at average temperature 40 and
area 10, where no clamp binds and both formulas give 1. -/
theorem c5_hotspot_confidence_amended_witness :
    hotspot_confidence 40 10 = hotspot_confidence_claimed 40 10 :=
  c5_hotspot_confidence_amended.2 40 10 (by norm_num) (by norm_num)
    (by norm_num [hotspot_confidence_claimed, clamp01])

/-- C6: every confidence value produced by the components lies in `[0,1]`:
hotspot confidence from `detect_hotspots`, RF position confidence from
`_calculate_position_confidence`, any correlation confidence emitted by
`correlate_rf_thermal`, and the `×0.7`-scaled RF-only and `×0.6`-scaled
thermal-only confidences. -/
theorem c6_confidences_in_unit_interval :
    (∀ avg_temp area : ℚ,
      0 ≤ hotspot_confidence avg_temp area ∧ hotspot_confidence avg_temp area ≤ 1) ∧
    (∀ detections : List RFDetection,
      0 ≤ calculate_position_confidence detections ∧
        calculate_position_confidence detections ≤ 1) ∧
    (∀ (rf_pos thermal_pos : ℝ × ℝ) (threshold c : ℝ),
      correlation_confidence rf_pos thermal_pos threshold = some c →
        0 ≤ c ∧ c ≤ 1) ∧
    (∀ detections : List RFDetection,
      0 ≤ calculate_position_confidence detections * (7 / 10) ∧
        calculate_position_confidence detections * (7 / 10) ≤ 1) ∧
    (∀ avg_temp area : ℚ,
      0 ≤ hotspot_confidence avg_temp area * (6 / 10) ∧
        hotspot_confidence avg_temp area * (6 / 10) ≤ 1) := by
  have hot : ∀ avg_temp area : ℚ,
      0 ≤ hotspot_confidence avg_temp area ∧ hotspot_confidence avg_temp area ≤ 1 := by
    intro avg_temp area
    rw [hotspot_confidence]
    constructor
    · have := le_max_left (1 / 10 : ℚ)
        ((min ((avg_temp - 25) / 15) 1 + (1 - |area - 10| / 10)) / 2)
      linarith
    · refine max_le (by norm_num) ?_
      have h1 : min ((avg_temp - 25) / 15) 1 ≤ 1 := min_le_right _ _
      have h2 : (0 : ℚ) ≤ |area - 10| / 10 := by positivity
      linarith
  have pos : ∀ detections : List RFDetection,
      0 ≤ calculate_position_confidence detections ∧
        calculate_position_confidence detections ≤ 1 := by
    intro detections
    rw [calculate_position_confidence]
    split_ifs with h
    · norm_num
    · set n := (detections.map (fun d => d.esp32_id)).dedup.length
      set v := (((detections.map (fun d => (d.rssi : ℚ))).sum) /
        (detections.length : ℚ) + 100) / 50
      have hb0 : (0 : ℚ) ≤ min ((n : ℚ) / 4) 1 := le_min (by positivity) (by norm_num)
      have hb1 : min ((n : ℚ) / 4) 1 ≤ 1 := min_le_right _ _
      have hf0 : (0 : ℚ) ≤ max (1 / 10) (min 1 v) :=
        le_trans (by norm_num) (le_max_left _ _)
      have hf1 : max (1 / 10) (min 1 v) ≤ 1 := max_le (by norm_num) (min_le_left _ _)
      exact ⟨mul_nonneg hb0 hf0, mul_le_one₀ hb1 hf0 hf1⟩
  have corr : ∀ (rf_pos thermal_pos : ℝ × ℝ) (threshold c : ℝ),
      correlation_confidence rf_pos thermal_pos threshold = some c →
        0 ≤ c ∧ c ≤ 1 := by
    intro rf_pos thermal_pos threshold c h
    rw [correlation_confidence] at h
    set distance := Real.sqrt
      ((rf_pos.1 - thermal_pos.1) ^ 2 + (rf_pos.2 - thermal_pos.2) ^ 2) with hdist
    have hd0 : 0 ≤ distance := Real.sqrt_nonneg _
    split_ifs at h with hle hz
    have hc : c = 1 - distance / threshold := (Option.some.injEq _ _).mp h.symm
    have ht : 0 < threshold := lt_of_le_of_ne (le_trans hd0 hle) (Ne.symm hz)
    constructor
    · have : distance / threshold ≤ 1 := (div_le_one ht).mpr hle
      rw [hc]; linarith
    · have : 0 ≤ distance / threshold := div_nonneg hd0 ht.le
      rw [hc]; linarith
  refine ⟨hot, pos, corr, ?_, ?_⟩
  · intro detections
    obtain ⟨h0, h1⟩ := pos detections
    constructor
    · positivity
    · nlinarith
  · intro avg_temp area
    obtain ⟨h0, h1⟩ := hot avg_temp area
    constructor
    · positivity
    · nlinarith

/-- C6 witness: the correlation bound applied to the concrete pair of
coincident positions `(0,0)` with threshold 50, whose emitted confidence
is 1. -/
theorem c6_confidences_witness : 0 ≤ (1 : ℝ) ∧ (1 : ℝ) ≤ 1 :=
  c6_confidences_in_unit_interval.2.2.1 (0, 0) (0, 0) 50 1 (by
    rw [correlation_confidence]
    norm_num [Real.sqrt_zero])

/-- C7: the periodic cleanup keeps an `ActiveDetection` record exactly when
`now - last_updated ≤ 30`; a record strictly older than 30 seconds is
removed unconditionally — the condition never consults `alert_triggered`,
so alerted records expire the same way. (The `active_detections` dict is
modelled as an association list with pairwise-distinct keys.) -/
theorem c7_cleanup_removes_iff (now : ℚ) (active_detections : List (String × Detection))
    (hkeys : (active_detections.map Prod.fst).Nodup) (p : String × Detection) :
    p ∈ cleanup_old_detections now active_detections ↔
      p ∈ active_detections ∧ now - p.2.last_updated ≤ 30 := by
  simp only [cleanup_old_detections, List.mem_filter, decide_eq_true_eq]
  constructor
  · rintro ⟨hp, hne⟩
    refine ⟨hp, ?_⟩
    by_contra hgt
    push_neg at hgt
    exact hne (List.mem_map.mpr
      ⟨p, List.mem_filter.mpr ⟨hp, by simpa using hgt⟩, rfl⟩)
  · rintro ⟨hp, hle⟩
    refine ⟨hp, ?_⟩
    intro hmem
    obtain ⟨q, hq, hqp⟩ := List.mem_map.mp hmem
    obtain ⟨hql, hqc⟩ := List.mem_filter.mp hq
    have hq30 : 30 < now - q.2.last_updated := by simpa using hqc
    have : q = p := List.inj_on_of_nodup_map hkeys hql hp hqp
    rw [this] at hq30
    linarith

/-- C7 witness: the cleanup characterization applied to a concrete two-entry
table at time 100, at the entry updated 5 seconds ago. -/
theorem c7_cleanup_removes_iff_witness :
    ("a", ({ first_detected := 90, last_updated := 95, positions := [],
             detection_type := "rf_only", confidence_scores := [],
             alert_triggered := true } : Detection)) ∈
      cleanup_old_detections 100
        [("a", { first_detected := 90, last_updated := 95, positions := [],
                 detection_type := "rf_only", confidence_scores := [],
                 alert_triggered := true }),
         ("b", { first_detected := 10, last_updated := 50, positions := [],
                 detection_type := "thermal_only", confidence_scores := [],
                 alert_triggered := false })] ↔
      ("a", ({ first_detected := 90, last_updated := 95, positions := [],
               detection_type := "rf_only", confidence_scores := [],
               alert_triggered := true } : Detection)) ∈
        [("a", ({ first_detected := 90, last_updated := 95, positions := [],
                  detection_type := "rf_only", confidence_scores := [],
                  alert_triggered := true } : Detection)),
         ("b", { first_detected := 10, last_updated := 50, positions := [],
                 detection_type := "thermal_only", confidence_scores := [],
                 alert_triggered := false })] ∧
      (100 : ℚ) - 95 ≤ 30 :=
  c7_cleanup_removes_iff 100 _ (by simp) _

/-- C8 counterexample: the line `DEVICE:AA:BB:CC` begins with `DEVICE:` and
splits into exactly 4 colon-delimited fields, so the claim says it is
accepted; the code drops it, because `int(parts[7])` raises `IndexError`
inside the handler. -/
theorem c8_counterexample :
    claim_accepts "DEVICE:AA:BB:CC" = true ∧
    parse_esp32_data 0 esp32_positions 5 "DEVICE:AA:BB:CC" = none := by
  decide

/-- C8 (amended): for a scanner id with a configured position, a line is
accepted (an observation is enqueued) iff it begins with `DEVICE:` and
splits into at least 8 colon-delimited fields whose 8th field parses as a
Python integer (so that `int(parts[7])` neither hits an `IndexError` nor a
`ValueError`); a rejected line leaves the observation queue unchanged. -/
theorem c8_parse_accepts_iff (esp32_id : ℕ) (now : ℚ) (line : String)
    (hid : esp32_id < esp32_positions.length) :
    ((parse_esp32_data esp32_id esp32_positions now line).isSome = true ↔
      ("DEVICE:".toList).isPrefixOf line.toList = true ∧
        (((pySplit ':' line.toList).get? 7).bind pyInt?).isSome = true) ∧
    (parse_esp32_data esp32_id esp32_positions now line = none →
      ∀ queue : List RFDetection,
        process_scanner_line esp32_id esp32_positions now queue line = queue) := by
  constructor
  · simp only [parse_esp32_data]
    by_cases hpre : ("DEVICE:".toList).isPrefixOf line.toList = true
    · rw [if_pos hpre]
      cases hget : ((pySplit ':' line.toList).get? 7).bind pyInt? with
      | none =>
        by_cases hlen : 4 ≤ (pySplit ':' line.toList).length
        · rw [if_pos hlen]
          simp [hpre]
        · rw [if_neg hlen]
          simp
      | some rssi =>
        have hlen : 4 ≤ (pySplit ':' line.toList).length := by
          obtain ⟨p7, hp7, -⟩ := Option.bind_eq_some.mp hget
          by_contra hlt
          push_neg at hlt
          rw [List.get?_eq_none.mpr (by omega)] at hp7
          exact Option.noConfusion hp7
        rw [if_pos hlen]
        have hpos : esp32_positions.get? esp32_id =
            some (esp32_positions.get ⟨esp32_id, hid⟩) := List.get?_eq_get hid
        refine iff_of_true ?_ ⟨hpre, rfl⟩
        rw [hpos]
        rfl
    · rw [if_neg hpre]
      simp at hpre
      simp [hpre]
  · intro hnone queue
    rw [process_scanner_line, hnone]

/-- C8 witness: the amended acceptance condition instantiated for scanner 0
on the well-formed example line from the source comment, plus the rejection
clause on the dropped 4-field line. -/
theorem c8_parse_accepts_iff_witness :
    ((parse_esp32_data 0 esp32_positions 5
        "DEVICE:AA:BB:CC:DD:EE:FF:-45:WiFi").isSome = true ↔
      ("DEVICE:".toList).isPrefixOf
          ("DEVICE:AA:BB:CC:DD:EE:FF:-45:WiFi").toList = true ∧
        (((pySplit ':' ("DEVICE:AA:BB:CC:DD:EE:FF:-45:WiFi").toList).get? 7).bind
            pyInt?).isSome = true) ∧
    process_scanner_line 0 esp32_positions 5 [] "DEVICE:AA:BB:CC" = [] :=
  ⟨(c8_parse_accepts_iff 0 5 "DEVICE:AA:BB:CC:DD:EE:FF:-45:WiFi" (by decide)).1,
   (c8_parse_accepts_iff 0 5 "DEVICE:AA:BB:CC" (by decide)).2 (by decide) []⟩

/-- Draining dequeues every request. -/
theorem drain_queue_eq_nil (queue : List AlertRequest) : drain_queue queue = [] := by
  induction queue with
  | nil => rfl
  | cons _ rest ih => simpa [drain_queue] using ih

/-- C9: after `emergency_stop`, from any prior dispatcher state, the alert
queue is empty, `alert_active` is false, `current_target` is cleared and
the laser, buzzer and LED outputs have all been commanded off. -/
theorem c9_emergency_stop_resets (s : AlertState) :
    (emergency_stop s).alert_queue = [] ∧
    (emergency_stop s).alert_active = false ∧
    (emergency_stop s).current_target = none ∧
    (emergency_stop s).laser = false ∧
    (emergency_stop s).buzzer = false ∧
    (emergency_stop s).led = false := by
  refine ⟨?_, rfl, rfl, rfl, rfl, rfl⟩
  exact drain_queue_eq_nil s.alert_queue

/-- C10: `get_detected_devices` returns exactly the devices whose most
recent observation (`last_seen`) is at most 10 seconds old, and every
report of `get_estimated_positions` comes from such a device — so no
position is ever reported for a device silent for more than 10 seconds,
even though the per-device observation windows retain 30 seconds of
history. -/
theorem c10_active_device_window (now : ℚ) (detected_devices : List (String × Device)) :
    (∀ p : String × Device,
      p ∈ get_detected_devices now detected_devices ↔
        p ∈ detected_devices ∧ now - p.2.last_seen ≤ 10) ∧
    (∀ report : PositionReport, report ∈ get_estimated_positions now detected_devices →
      ∃ p : String × Device, p ∈ detected_devices ∧ p.1 = report.mac_address ∧
        now - p.2.last_seen ≤ 10 ∧ p.2.estimated_position = some report.position) := by
  have hdev : ∀ p : String × Device,
      p ∈ get_detected_devices now detected_devices ↔
        p ∈ detected_devices ∧ now - p.2.last_seen ≤ 10 := by
    intro p
    simp [get_detected_devices, List.mem_filter]
  refine ⟨hdev, ?_⟩
  intro report hreport
  rw [get_estimated_positions] at hreport
  obtain ⟨p, hp, hmap⟩ := List.mem_filterMap.mp hreport
  obtain ⟨pos, hpos, heq⟩ := Option.map_eq_some'.mp hmap
  obtain ⟨hmem, hrecent⟩ := (hdev p).mp hp
  refine ⟨p, hmem, ?_, hrecent, ?_⟩
  · rw [← heq]
  · rw [hpos, ← heq]

/-- C10 witness: the position-report clause applied to a concrete one-device
table at time 100, whose device was last seen 5 seconds ago. -/
theorem c10_active_device_window_witness :
    ∃ p : String × Device,
      p ∈ [("aa:bb:cc:dd:ee:ff",
        ({ first_seen := 90, last_seen := 95, detections := [],
           estimated_position := some (3, 4) } : Device))] ∧
      p.1 = "aa:bb:cc:dd:ee:ff" ∧ (100 : ℚ) - p.2.last_seen ≤ 10 ∧
      p.2.estimated_position = some (3, 4) :=
  (c10_active_device_window 100
      [("aa:bb:cc:dd:ee:ff",
        { first_seen := 90, last_seen := 95, detections := [],
          estimated_position := some (3, 4) })]).2
    { mac_address := "aa:bb:cc:dd:ee:ff", position := (3, 4),
      confidence := calculate_position_confidence [] }
    (by norm_num [get_estimated_positions, get_detected_devices])

end ExamShield
